import Mathlib

/-!
# containerpathtool

A shallow embedding of `src/tools/containerpathtool/containerpathtool.c`.

The program is one straight-line `main` that calls three functions of an
external device library, prints either the looked-up path or one diagnostic
line, releases what it acquired and returns.  The device library is not part
of the program: it is a parameter (`Lib`) of the embedding, and so are its two
success constants.  A run of `main` is the ordered list of the external calls
it makes (`Event`) together with the value it returns; standard output,
standard error and the release calls are read off that list.  Line 33 hands
the looked-up pointer to `printf` unchecked; for a null pointer C defines no
behaviour, so such a run stops at that call and returns nothing.
-/

namespace ContainerPathTool

/-- A C string pointer (`char *`): `none` is the null pointer. -/
abbrev CStr := Option String

/-- A device handle (`idevice_t`): `none` is the null handle. -/
abbrev idevice_t := Option Nat

/-- An installation proxy client handle (`instproxy_client_t`): `none` is the null handle. -/
abbrev instproxy_client_t := Option Nat

/-- The external device library as `main` uses it.  Each function returns its
error code together with the value its out-parameter holds after the call (the
out-parameter is null before the call, so `none` also covers "left untouched").
The two success constants come from the library headers. -/
structure Lib where
  IDEVICE_E_SUCCESS : Int
  INSTPROXY_E_SUCCESS : Int
  idevice_new : CStr → Int × idevice_t
  instproxy_client_start_service : idevice_t → String → Int × instproxy_client_t
  instproxy_client_get_path_for_bundle_identifier : instproxy_client_t → CStr → Int × CStr

/-- One external call made by `main`, with its arguments; the three library
calls also carry what the library answered (error code, out-parameter). -/
inductive Event where
  | idevice_new (udid : CStr) (ret : Int) (device : idevice_t)
  | instproxy_client_start_service (device : idevice_t) (label : String) (ret : Int)
      (client : instproxy_client_t)
  | instproxy_client_get_path_for_bundle_identifier (client : instproxy_client_t)
      (appid : CStr) (ret : Int) (path : CStr)
  | fprintf_stderr (text : String)
  | printf_s_nl (arg : CStr)
  | free (p : CStr)
  | instproxy_client_free (client : instproxy_client_t)
  | idevice_free (device : idevice_t)
  deriving DecidableEq, Repr

/-- A run of `main`: the calls it made, in order, and the value it returned.
`ret` is `none` when `main` does not return: the run reached line 33 with a
null path, where C defines no behaviour, and `trace` ends at that call. -/
structure Run where
  trace : List Event
  ret : Option Int
  deriving DecidableEq, Repr

/-- Line 6: `char *udid = NULL;` (never assigned in the program). -/
def udid : CStr := none

/-- Lines 8-39: `main`.  `argv i` is the pointer read at `argv[i]`; `argc` is a
parameter the body never reads.  Every external call is recorded with the
arguments it is given.  Line 33, `printf("%s\n", path)`, is defined only for a
string: with a null `path` the run ends at that call, nothing is released and
`main` does not return. -/
def main (L : Lib) (argc : Int) (argv : Nat → CStr) : Run :=
  let appid := argv 1
  let r1 := L.idevice_new udid
  let device := r1.2
  if L.IDEVICE_E_SUCCESS ≠ r1.1 then
    { trace := [Event.idevice_new udid r1.1 device,
                Event.fprintf_stderr "No iOS device found, is it plugged in?\n"],
      ret := some (-1) }
  else
    let r2 := L.instproxy_client_start_service device "containerpathtool"
    let client := r2.2
    if L.INSTPROXY_E_SUCCESS ≠ r2.1 then
      { trace := [Event.idevice_new udid r1.1 device,
                  Event.instproxy_client_start_service device "containerpathtool" r2.1 client,
                  Event.fprintf_stderr "Could not start installation proxy service.\n",
                  Event.idevice_free device],
        ret := some (-1) }
    else
      let r3 := L.instproxy_client_get_path_for_bundle_identifier client appid
      let path := r3.2
      if L.INSTPROXY_E_SUCCESS ≠ r3.1 then
        { trace := [Event.idevice_new udid r1.1 device,
                    Event.instproxy_client_start_service device "containerpathtool" r2.1 client,
                    Event.instproxy_client_get_path_for_bundle_identifier client appid r3.1 path,
                    Event.fprintf_stderr "Couldn't get application path.\n",
                    Event.instproxy_client_free client,
                    Event.idevice_free device],
          ret := some (-1) }
      else
        match path with
        | none =>
          { trace := [Event.idevice_new udid r1.1 device,
                      Event.instproxy_client_start_service device "containerpathtool" r2.1 client,
                      Event.instproxy_client_get_path_for_bundle_identifier client appid r3.1 none,
                      Event.printf_s_nl none],
            ret := none }
        | some s =>
          { trace := [Event.idevice_new udid r1.1 device,
                      Event.instproxy_client_start_service device "containerpathtool" r2.1 client,
                      Event.instproxy_client_get_path_for_bundle_identifier client appid r3.1
                        (some s),
                      Event.printf_s_nl (some s),
                      Event.free (some s),
                      Event.instproxy_client_free client,
                      Event.idevice_free device],
            ret := some 0 }

/-- What the calls of a run put on standard error. -/
def stderrOf : List Event → String
  | [] => ""
  | Event.fprintf_stderr text :: es => text ++ stderrOf es
  | _ :: es => stderrOf es

/-- What the calls of a run put on standard output.  `printf("%s\n", p)` writes
the string `p` and a newline; with a null `p` the C standard defines no output,
which is `none` here. -/
def stdoutOf : List Event → Option String
  | [] => some ""
  | Event.printf_s_nl (some p) :: es => (stdoutOf es).map (fun rest => p ++ "\n" ++ rest)
  | Event.printf_s_nl none :: _ => none
  | _ :: es => stdoutOf es

/-- The process exit status the host sees for a return value of `main`: its low 8 bits. -/
def exitStatus (ret : Int) : Int := ret % 256

/-- The argument vector of an invocation with the given arguments: `argv[i]` is
the i-th argument and `argv[argc]` is the null pointer that ends the vector. -/
def argvOf (args : List String) : Nat → CStr := fun i => args.get? i

/-- A library for the examples: the three calls return the given error codes
(success is 0); the handles are 1 and 2 and the lookup stores no path. -/
def libCodes (c1 c2 c3 : Int) : Lib where
  IDEVICE_E_SUCCESS := 0
  INSTPROXY_E_SUCCESS := 0
  idevice_new := fun _ => (c1, some 1)
  instproxy_client_start_service := fun _ _ => (c2, some 2)
  instproxy_client_get_path_for_bundle_identifier := fun _ _ => (c3, none)

/-- A simulated device for the examples: one device (handle 1), one
installation proxy client (handle 2), one installed app `com.example.App`
at `/var/containers/Bundle/Application/XXXX`; success is code 0. -/
def simDevice : Lib where
  IDEVICE_E_SUCCESS := 0
  INSTPROXY_E_SUCCESS := 0
  idevice_new := fun _ => (0, some 1)
  instproxy_client_start_service := fun d _ => if d = some 1 then (0, some 2) else (-1, none)
  instproxy_client_get_path_for_bundle_identifier := fun c appid =>
    if c = some 2 ∧ appid = some "com.example.App"
    then (0, some "/var/containers/Bundle/Application/XXXX") else (-5, none)

/-- The three stages of a run at which the library can report a failure. -/
inductive Stage where
  | device
  | service
  | lookup
  deriving DecidableEq, Repr

/-- The first of the library calls of lines 15, 20 and 26 that reports a code
other than success, when the lookup is asked about `appid`; `none` when all
three report success. -/
def firstFailure (L : Lib) (appid : CStr) : Option Stage :=
  let r1 := L.idevice_new udid
  if L.IDEVICE_E_SUCCESS ≠ r1.1 then some Stage.device
  else
    let r2 := L.instproxy_client_start_service r1.2 "containerpathtool"
    if L.INSTPROXY_E_SUCCESS ≠ r2.1 then some Stage.service
    else
      let r3 := L.instproxy_client_get_path_for_bundle_identifier r2.2 appid
      if L.INSTPROXY_E_SUCCESS ≠ r3.1 then some Stage.lookup else none

/-- Whether an event is one of the three library calls that acquire or query
(the release calls are not). -/
def Event.isLibraryCall : Event → Bool
  | Event.idevice_new _ _ _ => true
  | Event.instproxy_client_start_service _ _ _ _ => true
  | Event.instproxy_client_get_path_for_bundle_identifier _ _ _ _ => true
  | _ => false

/-- Whether a library call of the run reported its success constant (events
that are not library calls report nothing and count as fine). -/
def Event.reportedSuccess (L : Lib) : Event → Bool
  | Event.idevice_new _ ret _ => decide (ret = L.IDEVICE_E_SUCCESS)
  | Event.instproxy_client_start_service _ _ ret _ => decide (ret = L.INSTPROXY_E_SUCCESS)
  | Event.instproxy_client_get_path_for_bundle_identifier _ _ ret _ =>
      decide (ret = L.INSTPROXY_E_SUCCESS)
  | _ => true

/-- The number of newline characters in a text. -/
def newlines (s : String) : Nat := (s.toList.filter (fun c => c == '\n')).length

/-- The library's answer to the `idevice_new` call of line 15. -/
def deviceAnswer (L : Lib) : Int × idevice_t := L.idevice_new udid

/-- The library's answer to the `instproxy_client_start_service` call of line
20, which is given the device of line 15. -/
def serviceAnswer (L : Lib) : Int × instproxy_client_t :=
  L.instproxy_client_start_service (deviceAnswer L).2 "containerpathtool"

/-- The library's answer to the lookup of line 26, which is given the client
of line 20 and the bundle identifier `appid`. -/
def lookupAnswer (L : Lib) (appid : CStr) : Int × CStr :=
  L.instproxy_client_get_path_for_bundle_identifier (serviceAnswer L).2 appid

/-- Whether an event releases a device handle. -/
def Event.isDeviceFree : Event → Bool
  | Event.idevice_free _ => true
  | _ => false

/-- Whether an event releases a client handle. -/
def Event.isClientFree : Event → Bool
  | Event.instproxy_client_free _ => true
  | _ => false

/-- Whether an event frees a string. -/
def Event.isPathFree : Event → Bool
  | Event.free _ => true
  | _ => false

/-- Which of the three library calls an event is, if any: `idevice_new` opens
the device stage, `instproxy_client_start_service` the service stage and
`instproxy_client_get_path_for_bundle_identifier` the lookup stage. -/
def Event.stage : Event → Option Stage
  | Event.idevice_new _ _ _ => some Stage.device
  | Event.instproxy_client_start_service _ _ _ _ => some Stage.service
  | Event.instproxy_client_get_path_for_bundle_identifier _ _ _ _ => some Stage.lookup
  | _ => none

/-- Whether a library call event carries what the library really answers to
the arguments it records (events that are not library calls count as fine). -/
def Event.answeredBy (L : Lib) : Event → Prop
  | Event.idevice_new u ret d => L.idevice_new u = (ret, d)
  | Event.instproxy_client_start_service d label ret c =>
      L.instproxy_client_start_service d label = (ret, c)
  | Event.instproxy_client_get_path_for_bundle_identifier c appid ret p =>
      L.instproxy_client_get_path_for_bundle_identifier c appid = (ret, p)
  | _ => True

/-- What a user of the tool can observe of a run: standard output, standard
error and the return value. -/
def observable (r : Run) : Option String × String × Option Int :=
  (stdoutOf r.trace, stderrOf r.trace, r.ret)

/-- The array a hosted environment passes as `argv` for the arguments `args`:
the argument strings in order, then the null pointer; `argc + 1` entries. -/
def argvArray (args : List String) : List CStr := args.map some ++ [none]

/-- Whether an event writes to standard output or standard error. -/
def Event.isOutput : Event → Bool
  | Event.fprintf_stderr _ => true
  | Event.printf_s_nl _ => true
  | _ => false

/-- Modelled from the spec: the lookup of the device library, whose code is not
part of the program, returns a path string or fails and "never returns an
empty or null path silently".  This is the null half: a lookup that reports
success has stored a path. -/
def Lib.lookupStoresPath (L : Lib) : Prop :=
  ∀ c appid,
    (L.instproxy_client_get_path_for_bundle_identifier c appid).1 = L.INSTPROXY_E_SUCCESS →
    (L.instproxy_client_get_path_for_bundle_identifier c appid).2 ≠ none

/-- Modelled from the spec: the lookup of the device library, whose code is not
part of the program, returns a path string or fails and "never returns an
empty or null path silently": a lookup that reports success has stored a path
that is not empty. -/
def Lib.lookupContract (L : Lib) : Prop :=
  ∀ c appid,
    (L.instproxy_client_get_path_for_bundle_identifier c appid).1 = L.INSTPROXY_E_SUCCESS →
    ∃ q, (L.instproxy_client_get_path_for_bundle_identifier c appid).2 = some q ∧ q ≠ ""

/-! ## The ways through `main` -/

/-- Every run of `main` takes one of five ways, fixed by the first failing
stage and, when none fails, by whether the lookup stored a path: with
`(e1, d)`, `(e2, c)` and `(e3, p)` the library's answers to the three calls,
the run is the listed one. -/
theorem main_cases (L : Lib) (argc : Int) (argv : Nat → CStr) :
    ∃ e1 d e2 c e3 p,
      L.idevice_new udid = (e1, d) ∧
      L.instproxy_client_start_service d "containerpathtool" = (e2, c) ∧
      L.instproxy_client_get_path_for_bundle_identifier c (argv 1) = (e3, p) ∧
      ((e1 ≠ L.IDEVICE_E_SUCCESS ∧ firstFailure L (argv 1) = some Stage.device ∧
          main L argc argv =
            { trace := [Event.idevice_new none e1 d,
                        Event.fprintf_stderr "No iOS device found, is it plugged in?\n"],
              ret := some (-1) }) ∨
       (e1 = L.IDEVICE_E_SUCCESS ∧ e2 ≠ L.INSTPROXY_E_SUCCESS ∧
          firstFailure L (argv 1) = some Stage.service ∧
          main L argc argv =
            { trace := [Event.idevice_new none e1 d,
                        Event.instproxy_client_start_service d "containerpathtool" e2 c,
                        Event.fprintf_stderr "Could not start installation proxy service.\n",
                        Event.idevice_free d],
              ret := some (-1) }) ∨
       (e1 = L.IDEVICE_E_SUCCESS ∧ e2 = L.INSTPROXY_E_SUCCESS ∧ e3 ≠ L.INSTPROXY_E_SUCCESS ∧
          firstFailure L (argv 1) = some Stage.lookup ∧
          main L argc argv =
            { trace := [Event.idevice_new none e1 d,
                        Event.instproxy_client_start_service d "containerpathtool" e2 c,
                        Event.instproxy_client_get_path_for_bundle_identifier c (argv 1) e3 p,
                        Event.fprintf_stderr "Couldn't get application path.\n",
                        Event.instproxy_client_free c,
                        Event.idevice_free d],
              ret := some (-1) }) ∨
       (e1 = L.IDEVICE_E_SUCCESS ∧ e2 = L.INSTPROXY_E_SUCCESS ∧ e3 = L.INSTPROXY_E_SUCCESS ∧
          p = none ∧ firstFailure L (argv 1) = none ∧
          main L argc argv =
            { trace := [Event.idevice_new none e1 d,
                        Event.instproxy_client_start_service d "containerpathtool" e2 c,
                        Event.instproxy_client_get_path_for_bundle_identifier c (argv 1) e3 none,
                        Event.printf_s_nl none],
              ret := none }) ∨
       (e1 = L.IDEVICE_E_SUCCESS ∧ e2 = L.INSTPROXY_E_SUCCESS ∧ e3 = L.INSTPROXY_E_SUCCESS ∧
          firstFailure L (argv 1) = none ∧
          ∃ q, p = some q ∧
          main L argc argv =
            { trace := [Event.idevice_new none e1 d,
                        Event.instproxy_client_start_service d "containerpathtool" e2 c,
                        Event.instproxy_client_get_path_for_bundle_identifier c (argv 1) e3
                          (some q),
                        Event.printf_s_nl (some q),
                        Event.free (some q),
                        Event.instproxy_client_free c,
                        Event.idevice_free d],
              ret := some 0 })) := by
  refine ⟨(L.idevice_new udid).1, (L.idevice_new udid).2,
    (L.instproxy_client_start_service (L.idevice_new udid).2 "containerpathtool").1,
    (L.instproxy_client_start_service (L.idevice_new udid).2 "containerpathtool").2,
    (L.instproxy_client_get_path_for_bundle_identifier
      (L.instproxy_client_start_service (L.idevice_new udid).2 "containerpathtool").2 (argv 1)).1,
    (L.instproxy_client_get_path_for_bundle_identifier
      (L.instproxy_client_start_service (L.idevice_new udid).2 "containerpathtool").2 (argv 1)).2,
    rfl, rfl, rfl, ?_⟩
  by_cases h1 : L.IDEVICE_E_SUCCESS = (L.idevice_new udid).1
  · by_cases h2 : L.INSTPROXY_E_SUCCESS =
        (L.instproxy_client_start_service (L.idevice_new udid).2 "containerpathtool").1
    · by_cases h3 : L.INSTPROXY_E_SUCCESS =
          (L.instproxy_client_get_path_for_bundle_identifier
            (L.instproxy_client_start_service (L.idevice_new udid).2 "containerpathtool").2
            (argv 1)).1
      · have hf : firstFailure L (argv 1) = none := by
          simp only [firstFailure, ne_eq, if_neg (not_not_intro h1), if_neg (not_not_intro h2),
            if_neg (not_not_intro h3)]
        rcases hp : (L.instproxy_client_get_path_for_bundle_identifier
            (L.instproxy_client_start_service (L.idevice_new udid).2 "containerpathtool").2
            (argv 1)).2 with _ | q
        · right; right; right; left
          refine ⟨h1.symm, h2.symm, h3.symm, rfl, hf, ?_⟩
          simp only [main, ne_eq, if_neg (not_not_intro h1), if_neg (not_not_intro h2),
            if_neg (not_not_intro h3), hp]
          rfl
        · right; right; right; right
          refine ⟨h1.symm, h2.symm, h3.symm, hf, q, rfl, ?_⟩
          simp only [main, ne_eq, if_neg (not_not_intro h1), if_neg (not_not_intro h2),
            if_neg (not_not_intro h3), hp]
          rfl
      · right; right; left
        refine ⟨h1.symm, h2.symm, fun h => h3 h.symm, ?_, ?_⟩
        · simp only [firstFailure, ne_eq, if_neg (not_not_intro h1), if_neg (not_not_intro h2),
            if_pos h3]
        · simp only [main, ne_eq, if_neg (not_not_intro h1), if_neg (not_not_intro h2),
            if_pos h3]
          rfl
    · right; left
      refine ⟨h1.symm, fun h => h2 h.symm, ?_, ?_⟩
      · simp only [firstFailure, ne_eq, if_neg (not_not_intro h1), if_pos h2]
      · simp only [main, ne_eq, if_neg (not_not_intro h1), if_pos h2]
        rfl
  · left
    refine ⟨fun h => h1 h.symm, ?_, ?_⟩
    · simp only [firstFailure, ne_eq, if_pos h1]
    · simp only [main, ne_eq, if_pos h1]
      rfl

/-- The simulated device honours the lookup contract. -/
theorem simDevice_lookupContract : Lib.lookupContract simDevice := by
  intro c appid h
  by_cases hc : c = some 2 ∧ appid = some "com.example.App"
  · exact ⟨"/var/containers/Bundle/Application/XXXX", by simp [simDevice, hc], by decide⟩
  · simp [simDevice, hc] at h

/-- A library that honours the lookup contract stores a path on success. -/
theorem lookupStoresPath_of_lookupContract (L : Lib) (h : Lib.lookupContract L) :
    Lib.lookupStoresPath L := by
  intro c appid hs
  obtain ⟨q, hq, -⟩ := h c appid hs
  rw [hq]
  exact Option.some_ne_none q

/-- The simulated device stores a path whenever its lookup reports success. -/
theorem simDevice_lookupStoresPath : Lib.lookupStoresPath simDevice :=
  lookupStoresPath_of_lookupContract simDevice simDevice_lookupContract

/-! ## Output and return value -/

/-- C1: when `idevice_new` succeeds, `instproxy_client_start_service` succeeds
and the lookup for the bundle identifier `b` succeeds yielding the path `p`,
`main` writes exactly `p` and one newline to standard output, nothing to
standard error, and returns 0. -/
theorem main_prints_path_on_success (L : Lib) (argc : Int) (argv : Nat → CStr)
    (b p : String) (d : idevice_t) (c : instproxy_client_t)
    (hb : argv 1 = some b)
    (h1 : L.idevice_new udid = (L.IDEVICE_E_SUCCESS, d))
    (h2 : L.instproxy_client_start_service d "containerpathtool" = (L.INSTPROXY_E_SUCCESS, c))
    (h3 : L.instproxy_client_get_path_for_bundle_identifier c (some b)
            = (L.INSTPROXY_E_SUCCESS, some p)) :
    stdoutOf (main L argc argv).trace = some (p ++ "\n") ∧
    stderrOf (main L argc argv).trace = "" ∧
    (main L argc argv).ret = some 0 := by
  unfold main
  simp [hb, h1, h2, h3, stdoutOf, stderrOf]

/-- C1, the end-to-end scenario: against the simulated device that has
`com.example.App` at `/var/containers/Bundle/Application/XXXX`, standard
output is exactly that path and a newline. -/
theorem main_prints_path_on_success_witness :
    stdoutOf (main simDevice 2 (argvOf ["containerpathtool", "com.example.App"])).trace
      = some "/var/containers/Bundle/Application/XXXX\n" ∧
    stderrOf (main simDevice 2 (argvOf ["containerpathtool", "com.example.App"])).trace = "" ∧
    (main simDevice 2 (argvOf ["containerpathtool", "com.example.App"])).ret = some 0 :=
  main_prints_path_on_success simDevice 2 (argvOf ["containerpathtool", "com.example.App"])
    "com.example.App" "/var/containers/Bundle/Application/XXXX" (some 1) (some 2)
    rfl rfl rfl rfl

/-- C2: with a library whose lookup stores a path whenever it reports success,
`main` returns 0 exactly when every library call it made reported success
(equivalently, when no stage fails); in every other case it returns -1, which
as an 8-bit exit status is 255 and so not zero. -/
theorem main_returns_zero_iff_all_calls_succeeded (L : Lib) (argc : Int) (argv : Nat → CStr)
    (hL : Lib.lookupStoresPath L) :
    ((main L argc argv).ret = some 0 ↔
      ∀ e ∈ (main L argc argv).trace, Event.reportedSuccess L e = true) ∧
    ((main L argc argv).ret = some 0 ↔ firstFailure L (argv 1) = none) ∧
    ((main L argc argv).ret ≠ some 0 →
      (main L argc argv).ret = some (-1) ∧
      (main L argc argv).ret.map exitStatus = some 255 ∧
      (main L argc argv).ret.map exitStatus ≠ some 0) := by
  obtain ⟨e1, d, e2, c, e3, p, -, -, a3, h⟩ := main_cases L argc argv
  have hstored : e3 = L.INSTPROXY_E_SUCCESS → p ≠ none := by
    intro h3
    have := hL c (argv 1)
    rw [a3] at this
    exact this h3
  rcases h with ⟨h1, hf, hm⟩ | ⟨h1, h2, hf, hm⟩ | ⟨h1, h2, h3, hf, hm⟩ |
    ⟨h1, h2, h3, hp, hf, hm⟩ | ⟨h1, h2, h3, hf, q, hp, hm⟩
  · simp [hm, hf, Event.reportedSuccess, exitStatus, h1]
  · simp [hm, hf, Event.reportedSuccess, exitStatus, h1, h2]
  · simp [hm, hf, Event.reportedSuccess, exitStatus, h1, h2, h3]
  · exact absurd hp (hstored h3)
  · simp [hm, hf, Event.reportedSuccess, exitStatus, h1, h2, h3]

/-- C2 at concrete runs: the simulated device gives return value 0 for the
installed app, and -1, exit status 255, for an app it does not have. -/
theorem main_returns_zero_iff_all_calls_succeeded_witness :
    (main simDevice 2 (argvOf ["containerpathtool", "com.example.App"])).ret = some 0 ∧
    (main simDevice 2 (argvOf ["containerpathtool", "com.example.Missing"])).ret = some (-1) ∧
    (main simDevice 2 (argvOf ["containerpathtool", "com.example.Missing"])).ret.map exitStatus
      = some 255 :=
  ⟨((main_returns_zero_iff_all_calls_succeeded simDevice 2
        (argvOf ["containerpathtool", "com.example.App"]) simDevice_lookupStoresPath).2.1).2
      (by decide),
   (((main_returns_zero_iff_all_calls_succeeded simDevice 2
        (argvOf ["containerpathtool", "com.example.Missing"]) simDevice_lookupStoresPath).2.2)
      (by decide)).1,
   (((main_returns_zero_iff_all_calls_succeeded simDevice 2
        (argvOf ["containerpathtool", "com.example.Missing"]) simDevice_lookupStoresPath).2.2)
      (by decide)).2.1⟩

/-- C3: when one of the three library calls fails, standard error holds exactly
the one line that belongs to the first failing stage, that line ends in its
only newline, and standard output stays empty. -/
theorem main_failure_writes_one_diagnostic (L : Lib) (argc : Int) (argv : Nat → CStr) :
    (firstFailure L (argv 1) = some Stage.device →
      stderrOf (main L argc argv).trace = "No iOS device found, is it plugged in?\n") ∧
    (firstFailure L (argv 1) = some Stage.service →
      stderrOf (main L argc argv).trace = "Could not start installation proxy service.\n") ∧
    (firstFailure L (argv 1) = some Stage.lookup →
      stderrOf (main L argc argv).trace = "Couldn't get application path.\n") ∧
    (firstFailure L (argv 1) ≠ none →
      stdoutOf (main L argc argv).trace = some "" ∧
      newlines (stderrOf (main L argc argv).trace) = 1 ∧
      (stderrOf (main L argc argv).trace).toList.getLast? = some '\n') := by
  obtain ⟨e1, d, e2, c, e3, p, -, -, -, h⟩ := main_cases L argc argv
  rcases h with ⟨h1, hf, hm⟩ | ⟨h1, h2, hf, hm⟩ | ⟨h1, h2, h3, hf, hm⟩ |
    ⟨h1, h2, h3, hp, hf, hm⟩ | ⟨h1, h2, h3, hf, q, hp, hm⟩
  · simp [hm, hf, stderrOf, stdoutOf]; decide
  · simp [hm, hf, stderrOf, stdoutOf]; decide
  · simp [hm, hf, stderrOf, stdoutOf]; decide
  · simp [hf]
  · simp [hf]

/-- C3 at a concrete run: the device is found, the service start fails with
code -3, and standard error is the service diagnostic while standard output
is empty. -/
theorem main_failure_writes_one_diagnostic_witness :
    stderrOf (main (libCodes 0 (-3) 0) 2 (argvOf ["containerpathtool", "com.example.App"])).trace
      = "Could not start installation proxy service.\n" ∧
    stdoutOf (main (libCodes 0 (-3) 0) 2 (argvOf ["containerpathtool", "com.example.App"])).trace
      = some "" :=
  ⟨(main_failure_writes_one_diagnostic (libCodes 0 (-3) 0) 2
      (argvOf ["containerpathtool", "com.example.App"])).2.1 (by decide),
   ((main_failure_writes_one_diagnostic (libCodes 0 (-3) 0) 2
      (argvOf ["containerpathtool", "com.example.App"])).2.2.2 (by decide)).1⟩

/-- C4: with a library that honours the lookup contract (success means a
stored, non-empty path), the tool never reports an empty or null path: when
the lookup reports failure, or yields no non-empty path, or any stage fails,
`main` prints nothing on standard output and returns -1, exit status not
zero; and whenever `main` returns 0, standard output is the non-empty path the
lookup stored, followed by a newline. -/
theorem main_never_prints_empty_path (L : Lib) (argc : Int) (argv : Nat → CStr)
    (hL : Lib.lookupContract L) :
    ((lookupAnswer L (argv 1)).1 ≠ L.INSTPROXY_E_SUCCESS →
      stdoutOf (main L argc argv).trace = some "" ∧ (main L argc argv).ret = some (-1) ∧
      (main L argc argv).ret.map exitStatus ≠ some 0) ∧
    ((∀ q, (lookupAnswer L (argv 1)).2 = some q → q = "") →
      stdoutOf (main L argc argv).trace = some "" ∧ (main L argc argv).ret = some (-1) ∧
      (main L argc argv).ret.map exitStatus ≠ some 0) ∧
    (firstFailure L (argv 1) ≠ none →
      stdoutOf (main L argc argv).trace = some "" ∧ (main L argc argv).ret = some (-1) ∧
      (main L argc argv).ret.map exitStatus ≠ some 0) ∧
    ((main L argc argv).ret = some 0 →
      ∃ q, q ≠ "" ∧ (lookupAnswer L (argv 1)).2 = some q ∧
        Event.printf_s_nl (some q) ∈ (main L argc argv).trace ∧
        stdoutOf (main L argc argv).trace = some (q ++ "\n") ∧
        stdoutOf (main L argc argv).trace ≠ some "\n") := by
  have key : ∀ q : String, q ≠ "" → q ++ "\n" ≠ "\n" := by
    intro q hq h
    have hlen := congrArg String.length h
    rw [String.length_append] at hlen
    have h1 : ("\n" : String).length = 1 := by decide
    have hz : q.length = 0 := by omega
    apply hq
    apply String.ext
    exact List.length_eq_zero.mp hz
  obtain ⟨e1, d, e2, c, e3, p, a1, a2, a3, h⟩ := main_cases L argc argv
  have b1 : deviceAnswer L = (e1, d) := a1
  have b2 : serviceAnswer L = (e2, c) := by simp only [serviceAnswer, b1, a2]
  have b3 : lookupAnswer L (argv 1) = (e3, p) := by simp only [lookupAnswer, b2, a3]
  have hstored : e3 = L.INSTPROXY_E_SUCCESS → ∃ q, p = some q ∧ q ≠ "" := by
    intro h3
    have := hL c (argv 1)
    rw [a3] at this
    exact this h3
  rw [b3]
  rcases h with ⟨h1, hf, hm⟩ | ⟨h1, h2, hf, hm⟩ | ⟨h1, h2, h3, hf, hm⟩ |
    ⟨h1, h2, h3, hp, hf, hm⟩ | ⟨h1, h2, h3, hf, q, hp, hm⟩
  · simp [hm, hf, stdoutOf, exitStatus]
  · simp [hm, hf, stdoutOf, exitStatus]
  · simp [hm, hf, stdoutOf, exitStatus]
  · obtain ⟨q, hq, -⟩ := hstored h3
    rw [hp] at hq
    exact absurd hq (by simp)
  · obtain ⟨q', hq', hne⟩ := hstored h3
    rw [hp] at hq'
    obtain rfl := Option.some.inj hq'
    have hout : stdoutOf (main L argc argv).trace = some (q ++ "\n") := by
      simp [hm, stdoutOf]
    refine ⟨fun h => absurd h3 h, fun h => absurd (h q hp) hne, fun h => absurd hf h,
      fun _ => ⟨q, hne, hp, by simp [hm], hout, ?_⟩⟩
    rw [hout]
    intro h
    exact key q hne (Option.some.inj h)

/-- C4 at concrete runs against the simulated device: asked for an app it does
not have, the tool prints nothing on standard output and returns -1; asked for
the installed app, it prints the stored, non-empty path. -/
theorem main_never_prints_empty_path_witness :
    (stdoutOf (main simDevice 2
        (argvOf ["containerpathtool", "com.example.Missing"])).trace = some "" ∧
      (main simDevice 2 (argvOf ["containerpathtool", "com.example.Missing"])).ret
        = some (-1)) ∧
    ∃ q, q ≠ "" ∧
      stdoutOf (main simDevice 2 (argvOf ["containerpathtool", "com.example.App"])).trace
        = some (q ++ "\n") :=
  ⟨⟨((main_never_prints_empty_path simDevice 2
        (argvOf ["containerpathtool", "com.example.Missing"]) simDevice_lookupContract).1
        (by decide)).1,
    ((main_never_prints_empty_path simDevice 2
        (argvOf ["containerpathtool", "com.example.Missing"]) simDevice_lookupContract).1
        (by decide)).2.1⟩,
   (((main_never_prints_empty_path simDevice 2
        (argvOf ["containerpathtool", "com.example.App"]) simDevice_lookupContract).2.2.2
        (by decide)).imp (fun _ h => ⟨h.1, h.2.2.2.1⟩))⟩

/-! ## Resources and call order -/

/-- C5: with a library whose lookup stores a path whenever it reports success,
on every way through `main` the device is released once exactly when
`idevice_new` succeeded, the client once exactly when the service start
succeeded, the path once exactly when the lookup succeeded, each time the very
value that was acquired; and no device release comes before a client release. -/
theorem main_releases_what_it_acquired (L : Lib) (argc : Int) (argv : Nat → CStr)
    (hL : Lib.lookupStoresPath L) :
    (main L argc argv).trace.filter Event.isDeviceFree =
      (if (deviceAnswer L).1 = L.IDEVICE_E_SUCCESS
       then [Event.idevice_free (deviceAnswer L).2] else []) ∧
    (main L argc argv).trace.filter Event.isClientFree =
      (if (deviceAnswer L).1 = L.IDEVICE_E_SUCCESS ∧
          (serviceAnswer L).1 = L.INSTPROXY_E_SUCCESS
       then [Event.instproxy_client_free (serviceAnswer L).2] else []) ∧
    (main L argc argv).trace.filter Event.isPathFree =
      (if (deviceAnswer L).1 = L.IDEVICE_E_SUCCESS ∧
          (serviceAnswer L).1 = L.INSTPROXY_E_SUCCESS ∧
          (lookupAnswer L (argv 1)).1 = L.INSTPROXY_E_SUCCESS
       then [Event.free (lookupAnswer L (argv 1)).2] else []) ∧
    (main L argc argv).trace.Pairwise
      (fun a b => Event.isDeviceFree a = true → Event.isClientFree b = false) := by
  obtain ⟨e1, d, e2, c, e3, p, a1, a2, a3, h⟩ := main_cases L argc argv
  have b1 : deviceAnswer L = (e1, d) := a1
  have b2 : serviceAnswer L = (e2, c) := by simp only [serviceAnswer, b1, a2]
  have b3 : lookupAnswer L (argv 1) = (e3, p) := by simp only [lookupAnswer, b2, a3]
  have hstored : e3 = L.INSTPROXY_E_SUCCESS → p ≠ none := by
    intro h3
    have := hL c (argv 1)
    rw [a3] at this
    exact this h3
  rcases h with ⟨h1, hf, hm⟩ | ⟨h1, h2, hf, hm⟩ | ⟨h1, h2, h3, hf, hm⟩ |
    ⟨h1, h2, h3, hp, hf, hm⟩ | ⟨h1, h2, h3, hf, q, hp, hm⟩
  · simp [hm, b1, b2, b3, Event.isDeviceFree, Event.isClientFree, Event.isPathFree,
      List.filter, h1]
  · simp [hm, b1, b2, b3, Event.isDeviceFree, Event.isClientFree, Event.isPathFree,
      List.filter, h1, h2]
  · simp [hm, b1, b2, b3, Event.isDeviceFree, Event.isClientFree, Event.isPathFree,
      List.filter, h1, h2, h3]
  · exact absurd hp (hstored h3)
  · simp [hm, b1, b2, b3, Event.isDeviceFree, Event.isClientFree, Event.isPathFree,
      List.filter, h1, h2, h3, hp]

/-- C5 at a concrete run: the simulated device does not have the app, so the
lookup fails after device 1 and client 2 were acquired; the device and the
client are released once each and no string is freed. -/
theorem main_releases_what_it_acquired_witness :
    (main simDevice 2 (argvOf ["containerpathtool", "com.example.Missing"])).trace.filter
        Event.isDeviceFree = [Event.idevice_free (some 1)] ∧
    (main simDevice 2 (argvOf ["containerpathtool", "com.example.Missing"])).trace.filter
        Event.isClientFree = [Event.instproxy_client_free (some 2)] ∧
    (main simDevice 2 (argvOf ["containerpathtool", "com.example.Missing"])).trace.filter
        Event.isPathFree = [] :=
  ⟨(main_releases_what_it_acquired simDevice 2
      (argvOf ["containerpathtool", "com.example.Missing"]) simDevice_lookupStoresPath).1,
   (main_releases_what_it_acquired simDevice 2
      (argvOf ["containerpathtool", "com.example.Missing"]) simDevice_lookupStoresPath).2.1,
   (main_releases_what_it_acquired simDevice 2
      (argvOf ["containerpathtool", "com.example.Missing"]) simDevice_lookupStoresPath).2.2.1⟩

/-- C6: the library calls of a run are, in order, a beginning of
`idevice_new`, `instproxy_client_start_service`,
`instproxy_client_get_path_for_bundle_identifier`, and each records the
library's real answer; a service start comes after a successful `idevice_new`
and is given the device that call returned; a lookup comes after a successful
service start and is given the client that call returned; and after a library
call that failed no further library call is made (only releases). -/
theorem main_calls_in_order (L : Lib) (argc : Int) (argv : Nat → CStr) :
    (main L argc argv).trace.filterMap Event.stage
      <+: [Stage.device, Stage.service, Stage.lookup] ∧
    ((main L argc argv).trace.filterMap Event.stage).Nodup ∧
    (∀ e ∈ (main L argc argv).trace, Event.answeredBy L e) ∧
    (∀ (i : Nat) d label ret c,
      (main L argc argv).trace[i]? = some (Event.instproxy_client_start_service d label ret c) →
      ∃ j : Nat, j < i ∧ ∃ u,
        (main L argc argv).trace[j]? = some (Event.idevice_new u L.IDEVICE_E_SUCCESS d)) ∧
    (∀ (i : Nat) c appid ret p,
      (main L argc argv).trace[i]? =
        some (Event.instproxy_client_get_path_for_bundle_identifier c appid ret p) →
      ∃ j : Nat, j < i ∧ ∃ d label,
        (main L argc argv).trace[j]? =
          some (Event.instproxy_client_start_service d label L.INSTPROXY_E_SUCCESS c)) ∧
    (main L argc argv).trace.Pairwise
      (fun a b => Event.isLibraryCall a = true → Event.reportedSuccess L a = false →
        Event.isLibraryCall b = false) := by
  obtain ⟨e1, d, e2, c, e3, p, a1, a2, a3, h⟩ := main_cases L argc argv
  rw [udid] at a1
  rcases h with ⟨h1, hf, hm⟩ | ⟨h1, h2, hf, hm⟩ | ⟨h1, h2, h3, hf, hm⟩ |
    ⟨h1, h2, h3, hp, hf, hm⟩ | ⟨h1, h2, h3, hf, q, hp, hm⟩
  · rw [hm]
    refine ⟨⟨[Stage.service, Stage.lookup], rfl⟩, by simp [Event.stage], ?_, ?_, ?_, ?_⟩
    · simp [Event.answeredBy, a1]
    · intro i d' label ret c' hi
      rcases i with _ | _ | i <;> simp at hi
    · intro i c' appid ret p' hi
      rcases i with _ | _ | i <;> simp at hi
    · simp [Event.isLibraryCall, Event.reportedSuccess]
  · rw [hm]
    refine ⟨⟨[Stage.lookup], rfl⟩, by simp [Event.stage], ?_, ?_, ?_, ?_⟩
    · simp [Event.answeredBy, a1, a2]
    · intro i d' label ret c' hi
      rcases i with _ | _ | _ | _ | i <;> simp at hi
      exact ⟨0, by omega, none, by simp [h1, hi.1]⟩
    · intro i c' appid ret p' hi
      rcases i with _ | _ | _ | _ | i <;> simp at hi
    · simp [Event.isLibraryCall, Event.reportedSuccess, h1]
  · rw [hm]
    refine ⟨⟨[], rfl⟩, by simp [Event.stage], ?_, ?_, ?_, ?_⟩
    · simp [Event.answeredBy, a1, a2, a3]
    · intro i d' label ret c' hi
      rcases i with _ | _ | _ | _ | _ | _ | i <;> simp at hi
      exact ⟨0, by omega, none, by simp [h1, hi.1]⟩
    · intro i c' appid ret p' hi
      rcases i with _ | _ | _ | _ | _ | _ | i <;> simp at hi
      exact ⟨1, by omega, d, "containerpathtool", by simp [h2, hi.1]⟩
    · simp [Event.isLibraryCall, Event.reportedSuccess, h1, h2]
  · rw [hm]
    subst hp
    refine ⟨⟨[], rfl⟩, by simp [Event.stage], ?_, ?_, ?_, ?_⟩
    · simp [Event.answeredBy, a1, a2, a3]
    · intro i d' label ret c' hi
      rcases i with _ | _ | _ | _ | i <;> simp at hi
      exact ⟨0, by omega, none, by simp [h1, hi.1]⟩
    · intro i c' appid ret p' hi
      rcases i with _ | _ | _ | _ | i <;> simp at hi
      exact ⟨1, by omega, d, "containerpathtool", by simp [h2, hi.1]⟩
    · simp [Event.isLibraryCall, Event.reportedSuccess, h1, h2, h3]
  · rw [hm]
    subst hp
    refine ⟨⟨[], rfl⟩, by simp [Event.stage], ?_, ?_, ?_, ?_⟩
    · simp [Event.answeredBy, a1, a2, a3]
    · intro i d' label ret c' hi
      rcases i with _ | _ | _ | _ | _ | _ | _ | i <;> simp at hi
      exact ⟨0, by omega, none, by simp [h1, hi.1]⟩
    · intro i c' appid ret p' hi
      rcases i with _ | _ | _ | _ | _ | _ | _ | i <;> simp at hi
      exact ⟨1, by omega, d, "containerpathtool", by simp [h2, hi.1]⟩
    · simp [Event.isLibraryCall, Event.reportedSuccess, h1, h2, h3]

/-- C6 at a concrete run: when the service start fails with code -3 the
library calls made are `idevice_new` and `instproxy_client_start_service`,
and the lookup is never made. -/
theorem main_calls_in_order_witness :
    (main (libCodes 0 (-3) 0) 2
        (argvOf ["containerpathtool", "com.example.App"])).trace.filterMap Event.stage
      = [Stage.device, Stage.service] ∧
    (main (libCodes 0 (-3) 0) 2
        (argvOf ["containerpathtool", "com.example.App"])).trace.filterMap Event.stage
      <+: [Stage.device, Stage.service, Stage.lookup] :=
  ⟨by decide,
   (main_calls_in_order (libCodes 0 (-3) 0) 2
      (argvOf ["containerpathtool", "com.example.App"])).1⟩

/-! ## What the result depends on -/

/-- C7: two runs that fail at the same stage, whatever the libraries and the
error codes they return, show the same standard output, standard error and
return value. -/
theorem main_collapses_error_codes (L1 L2 : Lib) (argc1 argc2 : Int)
    (argv1 argv2 : Nat → CStr) (s : Stage)
    (h1 : firstFailure L1 (argv1 1) = some s)
    (h2 : firstFailure L2 (argv2 1) = some s) :
    observable (main L1 argc1 argv1) = observable (main L2 argc2 argv2) := by
  obtain ⟨e1, d, e2, c, e3, p, -, -, -, h⟩ := main_cases L1 argc1 argv1
  obtain ⟨e1', d', e2', c', e3', p', -, -, -, h'⟩ := main_cases L2 argc2 argv2
  rcases h with ⟨-, hf, hm⟩ | ⟨-, -, hf, hm⟩ | ⟨-, -, -, hf, hm⟩ |
    ⟨-, -, -, -, hf, hm⟩ | ⟨-, -, -, hf, q, -, hm⟩ <;>
  rcases h' with ⟨-, hf', hm'⟩ | ⟨-, -, hf', hm'⟩ | ⟨-, -, -, hf', hm'⟩ |
    ⟨-, -, -, -, hf', hm'⟩ | ⟨-, -, -, hf', q', -, hm'⟩ <;>
    rw [hf] at h1 <;> rw [hf'] at h2 <;>
    first
      | (cases h1; cases h2; rw [hm, hm']; rfl)
      | (cases h1; cases h2)
      | cases h1

/-- C7 at concrete runs: the device stage fails once with code -1 and once
with code -3, and what the user observes is the same. -/
theorem main_collapses_error_codes_witness :
    observable (main (libCodes (-1) 0 0) 2 (argvOf ["containerpathtool", "com.example.App"]))
      = observable (main (libCodes (-3) 0 0) 2 (argvOf ["containerpathtool", "com.example.App"])) :=
  main_collapses_error_codes (libCodes (-1) 0 0) (libCodes (-3) 0 0) 2 2
    (argvOf ["containerpathtool", "com.example.App"])
    (argvOf ["containerpathtool", "com.example.App"]) Stage.device (by decide) (by decide)

/-- C8: the global `udid` is null, the first call of every run is `idevice_new`
with a null UDID, no `idevice_new` call of a run carries any other UDID, and
that first call is the same whatever the argument vector is. -/
theorem main_always_passes_null_udid (L : Lib) (argc : Int) (argv : Nat → CStr) :
    udid = none ∧
    (main L argc argv).trace[0]? =
      some (Event.idevice_new none (L.idevice_new none).1 (L.idevice_new none).2) ∧
    (∀ u ret d, Event.idevice_new u ret d ∈ (main L argc argv).trace → u = none) ∧
    (∀ (argc' : Int) (argv' : Nat → CStr),
      (main L argc' argv').trace.filter (fun e => decide (Event.stage e = some Stage.device))
        = (main L argc argv).trace.filter
            (fun e => decide (Event.stage e = some Stage.device))) := by
  refine ⟨rfl, ?_, ?_, ?_⟩
  · obtain ⟨e1, d, e2, c, e3, p, a1, -, -, h⟩ := main_cases L argc argv
    rw [udid] at a1
    rcases h with ⟨-, -, hm⟩ | ⟨-, -, -, hm⟩ | ⟨-, -, -, -, hm⟩ |
      ⟨-, -, -, -, -, hm⟩ | ⟨-, -, -, -, q, -, hm⟩ <;>
      simp [hm, a1]
  · obtain ⟨e1, d, e2, c, e3, p, -, -, -, h⟩ := main_cases L argc argv
    rcases h with ⟨-, -, hm⟩ | ⟨-, -, -, hm⟩ | ⟨-, -, -, -, hm⟩ |
      ⟨-, -, -, -, -, hm⟩ | ⟨-, -, -, -, q, -, hm⟩ <;>
      simp [hm] <;> intros <;> simp_all
  · intro argc' argv'
    obtain ⟨e1, d, e2, c, e3, p, a1, -, -, h⟩ := main_cases L argc argv
    obtain ⟨e1', d', e2', c', e3', p', a1', -, -, h'⟩ := main_cases L argc' argv'
    rw [a1] at a1'
    obtain ⟨rfl, rfl⟩ := Prod.mk.inj a1'
    rcases h with ⟨-, -, hm⟩ | ⟨-, -, -, hm⟩ | ⟨-, -, -, -, hm⟩ |
      ⟨-, -, -, -, -, hm⟩ | ⟨-, -, -, -, q, -, hm⟩ <;>
    rcases h' with ⟨-, -, hm'⟩ | ⟨-, -, -, hm'⟩ | ⟨-, -, -, -, hm'⟩ |
      ⟨-, -, -, -, -, hm'⟩ | ⟨-, -, -, -, q', -, hm'⟩ <;>
      simp [hm, hm', List.filter, Event.stage]

/-- C8 at a concrete run: an invocation that names a device on its command
line still opens the device with a null UDID. -/
theorem main_always_passes_null_udid_witness :
    (main simDevice 4
        (argvOf ["containerpathtool", "com.example.App", "--udid", "00008030-001A"])).trace[0]?
      = some (Event.idevice_new none 0 (some 1)) :=
  (main_always_passes_null_udid simDevice 4
    (argvOf ["containerpathtool", "com.example.App", "--udid", "00008030-001A"])).2.1

/-- The run of `main` reads the argument vector at index 1 only. -/
theorem main_congr (L : Lib) (argc argc' : Int) (argv argv' : Nat → CStr)
    (h : argv 1 = argv' 1) : main L argc argv = main L argc' argv' := by
  simp only [main, h]

/-- C10: `main` never looks at `argc`.  In an invocation with the program name
as its only argument (`argc` is 1) the entry `argv[1]` that line 10 reads is an
entry of the argument array, namely its closing null pointer.  The run still
starts with `idevice_new`, makes the service start second when that
succeeded, and makes the lookup third, with a null bundle identifier, when
both succeeded.  The tool writes nothing of its own: when a stage fails its
whole output is that stage's diagnostic on standard error and it returns -1;
when none fails its whole output is the one `printf` of the pointer the lookup
stored, and it returns 0 when that pointer is a string.  The run is the same
for every invocation whose `argv[1]` is null, so only the library decides it. -/
theorem main_without_bundle_argument (L : Lib) (args : List String)
    (h1 : args.length = 1) :
    (∀ (argc' argc'' : Int) (argv : Nat → CStr), main L argc' argv = main L argc'' argv) ∧
    (argvArray args)[1]? = some none ∧
    (∀ (i : Nat) p, (argvArray args)[i]? = some p → argvOf args i = p) ∧
    argvOf args 1 = none ∧
    (main L args.length (argvOf args)).trace[0]? =
      some (Event.idevice_new none (deviceAnswer L).1 (deviceAnswer L).2) ∧
    ((deviceAnswer L).1 = L.IDEVICE_E_SUCCESS →
      (main L args.length (argvOf args)).trace[1]? =
        some (Event.instproxy_client_start_service (deviceAnswer L).2 "containerpathtool"
          (serviceAnswer L).1 (serviceAnswer L).2)) ∧
    ((deviceAnswer L).1 = L.IDEVICE_E_SUCCESS → (serviceAnswer L).1 = L.INSTPROXY_E_SUCCESS →
      (main L args.length (argvOf args)).trace[2]? =
        some (Event.instproxy_client_get_path_for_bundle_identifier (serviceAnswer L).2 none
          (lookupAnswer L none).1 (lookupAnswer L none).2)) ∧
    (firstFailure L none = some Stage.device →
      (main L args.length (argvOf args)).trace.filter Event.isOutput =
        [Event.fprintf_stderr "No iOS device found, is it plugged in?\n"] ∧
      (main L args.length (argvOf args)).ret = some (-1)) ∧
    (firstFailure L none = some Stage.service →
      (main L args.length (argvOf args)).trace.filter Event.isOutput =
        [Event.fprintf_stderr "Could not start installation proxy service.\n"] ∧
      (main L args.length (argvOf args)).ret = some (-1)) ∧
    (firstFailure L none = some Stage.lookup →
      (main L args.length (argvOf args)).trace.filter Event.isOutput =
        [Event.fprintf_stderr "Couldn't get application path.\n"] ∧
      (main L args.length (argvOf args)).ret = some (-1)) ∧
    (firstFailure L none = none →
      (main L args.length (argvOf args)).trace.filter Event.isOutput =
        [Event.printf_s_nl (lookupAnswer L none).2] ∧
      (main L args.length (argvOf args)).ret =
        (if (lookupAnswer L none).2 = none then none else some 0)) ∧
    (∀ (argc' : Int) (argv' : Nat → CStr), argv' 1 = none →
      main L argc' argv' = main L args.length (argvOf args)) := by
  obtain ⟨a, rfl⟩ := List.length_eq_one.mp h1
  have hnull : argvOf [a] 1 = none := rfl
  have hlen : (([a] : List String).length : Int) = 1 := rfl
  rw [hlen]
  obtain ⟨e1, d, e2, c, e3, p, a1, a2, a3, h⟩ := main_cases L 1 (argvOf [a])
  rw [hnull] at a3 h
  have b1 : deviceAnswer L = (e1, d) := a1
  have b2 : serviceAnswer L = (e2, c) := by simp only [serviceAnswer, b1, a2]
  have b3 : lookupAnswer L none = (e3, p) := by simp only [lookupAnswer, b2, a3]
  refine ⟨fun argc' argc'' argv => main_congr L argc' argc'' argv argv rfl, rfl, ?_, hnull,
    ?_, ?_, ?_, ?_, ?_, ?_, ?_,
    fun argc' argv' h' => main_congr L argc' _ argv' (argvOf [a]) (by rw [h', hnull])⟩
  · intro i p' hi
    rcases i with _ | _ | i
    · simp [argvArray] at hi
      rw [← hi]; rfl
    · simp [argvArray] at hi
      rw [← hi]; rfl
    · simp [argvArray] at hi
  · rcases h with ⟨-, -, hm⟩ | ⟨-, -, -, hm⟩ | ⟨-, -, -, -, hm⟩ |
      ⟨-, -, -, -, -, hm⟩ | ⟨-, -, -, -, q, -, hm⟩ <;>
      simp [hm, b1]
  · rcases h with ⟨g1, -, hm⟩ | ⟨-, -, -, hm⟩ | ⟨-, -, -, -, hm⟩ |
      ⟨-, -, -, -, -, hm⟩ | ⟨-, -, -, -, q, -, hm⟩
    · simp [hm, b1, b2, g1]
    · simp [hm, b1, b2]
    · simp [hm, b1, b2]
    · simp [hm, b1, b2]
    · simp [hm, b1, b2]
  · rcases h with ⟨g1, -, hm⟩ | ⟨-, g2, -, hm⟩ | ⟨-, -, -, -, hm⟩ |
      ⟨-, -, -, hp, -, hm⟩ | ⟨-, -, -, -, q, hp, hm⟩
    · simp [hm, b1, b2, b3, g1]
    · simp [hm, b1, b2, b3, g2]
    · simp [hm, b1, b2, b3]
    · simp [hm, b1, b2, b3, hp]
    · simp [hm, b1, b2, b3, hp]
  · rcases h with ⟨-, hf, hm⟩ | ⟨-, -, hf, hm⟩ | ⟨-, -, -, hf, hm⟩ |
      ⟨-, -, -, -, hf, hm⟩ | ⟨-, -, -, hf, q, -, hm⟩ <;>
      simp [hm, hf, Event.isOutput, List.filter]
  · rcases h with ⟨-, hf, hm⟩ | ⟨-, -, hf, hm⟩ | ⟨-, -, -, hf, hm⟩ |
      ⟨-, -, -, -, hf, hm⟩ | ⟨-, -, -, hf, q, -, hm⟩ <;>
      simp [hm, hf, Event.isOutput, List.filter]
  · rcases h with ⟨-, hf, hm⟩ | ⟨-, -, hf, hm⟩ | ⟨-, -, -, hf, hm⟩ |
      ⟨-, -, -, -, hf, hm⟩ | ⟨-, -, -, hf, q, -, hm⟩ <;>
      simp [hm, hf, Event.isOutput, List.filter]
  · rcases h with ⟨-, hf, hm⟩ | ⟨-, -, hf, hm⟩ | ⟨-, -, -, hf, hm⟩ |
      ⟨-, -, -, hp, hf, hm⟩ | ⟨-, -, -, hf, q, hp, hm⟩
    · simp [hf]
    · simp [hf]
    · simp [hf]
    · simp [hm, b3, hp, Event.isOutput, List.filter]
    · simp [hm, b3, hp, Event.isOutput, List.filter]

/-- C10 at a concrete run: invoked with no argument against the simulated
device, `argv[1]` is the closing null entry of the two-entry argument array,
the library refuses the null bundle identifier, and the tool's whole output
is the lookup diagnostic, with return value -1. -/
theorem main_without_bundle_argument_witness :
    (argvArray ["containerpathtool"])[1]? = some none ∧
    (main simDevice 1 (argvOf ["containerpathtool"])).trace.filter Event.isOutput =
      [Event.fprintf_stderr "Couldn't get application path.\n"] ∧
    (main simDevice 1 (argvOf ["containerpathtool"])).ret = some (-1) :=
  ⟨(main_without_bundle_argument simDevice ["containerpathtool"] rfl).2.1,
   ((main_without_bundle_argument simDevice ["containerpathtool"] rfl).2.2.2.2.2.2.2.2.2.1
      (by decide)).1,
   ((main_without_bundle_argument simDevice ["containerpathtool"] rfl).2.2.2.2.2.2.2.2.2.1
      (by decide)).2⟩

end ContainerPathTool
